import Mathlib

/-
Verification development for the pdbex type-graph reconstruction tool.

The embedding below follows the two source files:
  - the field declaration printer class UserDataFieldDefinition
    (visit callbacks over one symbol of a type chain, plus the final
    GetPrintableDefinition rendering), and
  - the driver class PDBExtractor (command line parsing, the run control
    flow, declaration and definition printing, error handling).

External collaborators that are not part of the sources (the PDB reader,
the symbol sorter, the symbol visitor and the header reconstructor) are
either taken as parameters of the embedded functions or modelled from the
spec; each such definition carries a doc comment saying so.
-/

/-- Symbol tags used by the driver; mirrors the DIA SymTag values the
sources mention (SymTagUDT, SymTagEnum) plus the tags handled by the field
declaration printer. -/
inductive SymTag where
  | BaseType
  | PointerType
  | ArrayType
  | FunctionType
  | Enum
  | UDT
  | Typedef
deriving DecidableEq, Repr

/-- Kind of a user defined type; spec section 3: struct, union, class. -/
inductive UdtKind where
  | Struct
  | Union
  | Class
deriving DecidableEq, Repr

/-- One node of the symbol graph, with the fields the embedded code reads:
Tag, Name, Size, the array payload ElementCount (u.Array.ElementCount) and
the UDT payload kind (u.UserData.Kind). -/
structure SYMBOL where
  Tag : SymTag
  Name : String
  Size : Nat
  ElementCount : Nat
  UserDataKind : UdtKind
deriving DecidableEq, Repr

/-- Accumulator state of the field declaration printer
UserDataFieldDefinition: type text before the member name, the member
name, type text after the member name, and a trailing comment. -/
structure UserDataFieldDefinition where
  m_TypePrefix : String := ""
  m_MemberName : String := ""
  m_TypeSuffix : String := ""
  m_Comment : String := ""
deriving DecidableEq, Repr

/-- VisitPointerTypeEnd: appends a pointer marker to the type text before
the name. -/
def VisitPointerTypeEnd (st : UserDataFieldDefinition) (_s : SYMBOL) :
    UserDataFieldDefinition :=
  { st with m_TypePrefix := st.m_TypePrefix ++ "*" }

/-- VisitArrayTypeEnd: a zero element count array is converted to a
pointer (a star is appended before the name) and the stored size of the
symbol is set to 1 by an in place mutation; a nonzero element count
appends the bracketed count after the name and leaves the symbol
untouched. Returns the new accumulator together with the possibly mutated
symbol. -/
def VisitArrayTypeEnd (st : UserDataFieldDefinition) (s : SYMBOL) :
    UserDataFieldDefinition × SYMBOL :=
  if s.ElementCount = 0 then
    ({ st with m_TypePrefix := st.m_TypePrefix ++ "*" }, { s with Size := 1 })
  else
    ({ st with m_TypeSuffix := st.m_TypeSuffix ++ "[" ++ toString s.ElementCount ++ "]" }, s)

/-- VisitFunctionTypeEnd: appends the fixed placeholder primitive to the
type text before the name and sets the fixed explanatory comment; the
visited symbol is not inspected at all. -/
def VisitFunctionTypeEnd (st : UserDataFieldDefinition) (_s : SYMBOL) :
    UserDataFieldDefinition :=
  { st with m_TypePrefix := st.m_TypePrefix ++ "void",
            m_Comment := " /* function */" }

/-- SetMemberName: records the member identifier, empty when the source
pointer is null. -/
def SetMemberName (st : UserDataFieldDefinition) (name : Option String) :
    UserDataFieldDefinition :=
  { st with m_MemberName := name.getD "" }

/-- GetPrintableDefinition: the final rendering of the accumulator. -/
def GetPrintableDefinition (st : UserDataFieldDefinition) : String :=
  st.m_TypePrefix ++ " " ++ st.m_MemberName ++ st.m_TypeSuffix ++ st.m_Comment

/-- Claim C1: for an Array symbol, a zero element count makes the end
visit append a pointer marker to the type text before the name, leave the
text after the name unchanged and force the stored size of the symbol to
1; a nonzero element count appends the bracketed count after the name and
leaves the text before the name and the whole symbol, its size included,
unchanged. -/
theorem visitArrayTypeEnd_spec (st : UserDataFieldDefinition) (s : SYMBOL) :
    (s.ElementCount = 0 →
      (VisitArrayTypeEnd st s).1.m_TypePrefix = st.m_TypePrefix ++ "*" ∧
      (VisitArrayTypeEnd st s).1.m_TypeSuffix = st.m_TypeSuffix ∧
      (VisitArrayTypeEnd st s).2.Size = 1) ∧
    (s.ElementCount ≠ 0 →
      (VisitArrayTypeEnd st s).1.m_TypeSuffix
        = st.m_TypeSuffix ++ "[" ++ toString s.ElementCount ++ "]" ∧
      (VisitArrayTypeEnd st s).1.m_TypePrefix = st.m_TypePrefix ∧
      (VisitArrayTypeEnd st s).2 = s) := by
  constructor <;> intro h <;> simp [VisitArrayTypeEnd, h]

/-- Concrete array symbol with element count zero. -/
def arrZero : SYMBOL :=
  { Tag := SymTag.ArrayType, Name := "", Size := 0, ElementCount := 0,
    UserDataKind := UdtKind.Struct }

/-- Concrete array symbol with element count three. -/
def arrThree : SYMBOL :=
  { Tag := SymTag.ArrayType, Name := "", Size := 12, ElementCount := 3,
    UserDataKind := UdtKind.Struct }

/-- Fresh printer accumulator. -/
def udfd0 : UserDataFieldDefinition := {}

/-- Witness for claim C1 at concrete inputs. -/
theorem visitArrayTypeEnd_spec_witness :
    ((VisitArrayTypeEnd udfd0 arrZero).2.Size = 1) ∧
    ((VisitArrayTypeEnd udfd0 arrThree).2 = arrThree) :=
  ⟨((visitArrayTypeEnd_spec udfd0 arrZero).1 rfl).2.2,
   ((visitArrayTypeEnd_spec udfd0 arrThree).2 (by decide)).2.2⟩

/-- Claim C2: the end visit of a Function symbol appends the fixed
placeholder primitive to the type text before the name and sets the fixed
explanatory comment; the result is the same for every visited symbol, and
the rendered member text ends with that comment. No error channel exists
in the printer. -/
theorem visitFunctionTypeEnd_spec (st : UserDataFieldDefinition) (s t : SYMBOL) :
    VisitFunctionTypeEnd st s = VisitFunctionTypeEnd st t ∧
    (VisitFunctionTypeEnd st s).m_TypePrefix = st.m_TypePrefix ++ "void" ∧
    (VisitFunctionTypeEnd st s).m_Comment = " /* function */" ∧
    ∃ u, GetPrintableDefinition (VisitFunctionTypeEnd st s) = u ++ " /* function */" := by
  refine ⟨rfl, rfl, rfl, ⟨st.m_TypePrefix ++ "void" ++ " " ++ st.m_MemberName ++ st.m_TypeSuffix, ?_⟩⟩
  simp [GetPrintableDefinition, VisitFunctionTypeEnd, String.append_assoc]

/-- Claim C3: the corrective mutation done while printing an array is
idempotent. Running the array end visit a second time, over the symbol
already mutated by the first run and from the same fresh accumulator
state, yields the same accumulator and the same symbol as the first run,
so the rendered text of a second reconstruction equals the first. -/
theorem visitArrayTypeEnd_idempotent (st : UserDataFieldDefinition) (s : SYMBOL) :
    VisitArrayTypeEnd st (VisitArrayTypeEnd st s).2 = VisitArrayTypeEnd st s ∧
    GetPrintableDefinition (VisitArrayTypeEnd st (VisitArrayTypeEnd st s).2).1
      = GetPrintableDefinition (VisitArrayTypeEnd st s).1 := by
  have h : VisitArrayTypeEnd st (VisitArrayTypeEnd st s).2 = VisitArrayTypeEnd st s := by
    by_cases h0 : s.ElementCount = 0 <;> simp [VisitArrayTypeEnd, h0]
  exact ⟨h, by rw [h]⟩

/-- Claim C5: the final rendering is exactly the type text before the
name, one space, the member name, the type text after the name and the
comment, concatenated in that order. -/
theorem getPrintableDefinition_spec (st : UserDataFieldDefinition) :
    GetPrintableDefinition st
      = st.m_TypePrefix ++ " " ++ st.m_MemberName ++ st.m_TypeSuffix ++ st.m_Comment :=
  rfl

/-- Expansion policy of nested aggregates, from PDBHeaderReconstructor. -/
inductive MemberStructExpansionType where
  | None
  | InlineUnnamed
  | InlineAll
deriving DecidableEq, Repr

/-- The settings the driver fills while parsing parameters. The output
and test streams are represented by the recorded file names; a created
stream corresponds to a some file name. Default values follow the source
where visible and the spec defaults of section 6 for the fields whose
defaults live in headers that are not among the sources. -/
structure ProgramSettings where
  SymbolName : String := ""
  PdbPath : String := ""
  OutputFilename : Option String := none
  TestFilename : Option String := none
  MemberStructExpansion : MemberStructExpansionType := MemberStructExpansionType.InlineUnnamed
  AnonymousUnionPrefix : Option String := none
  AnonymousStructPrefix : Option String := none
  SymbolPrefix : Option String := none
  SymbolSuffix : Option String := none
  CreatePaddingMembers : Bool := true
  ShowOffsets : Bool := true
  MicrosoftTypedefs : Bool := true
  AllowBitFieldsInUnion : Bool := false
  AllowAnonymousDataTypes : Bool := true
  UseStdInt : Bool := false
  PrintReferencedTypes : Bool := true
  PrintHeader : Bool := true
  PrintDeclarations : Bool := true
  PrintDefinitions : Bool := true
deriving DecidableEq, Repr

/-- Error message used for malformed command lines. -/
def MESSAGE_INVALID_PARAMETERS : String := "Invalid parameters"

/-- Error message used when the PDB file cannot be opened. -/
def MESSAGE_FILE_NOT_FOUND : String := "File not found"

/-- Error message used when the requested symbol is absent. -/
def MESSAGE_SYMBOL_NOT_FOUND : String := "Symbol not found"

/-- The inner switch of the -e option over the first character of its
value argument; any other first character, and an empty value, fall to
the default branch. -/
def expansionOfChar (cs : List Char) : MemberStructExpansionType :=
  match cs with
  | [] => MemberStructExpansionType.InlineUnnamed
  | c :: _ =>
    if c = 'n' then MemberStructExpansionType.None
    else if c = 'i' then MemberStructExpansionType.InlineUnnamed
    else if c = 'a' then MemberStructExpansionType.InlineAll
    else MemberStructExpansionType.InlineUnnamed

/-- The option loop of ParseParameters over the arguments after the
symbol name and the path. A thrown exception is modelled by returning the
settings accumulated so far together with the message; success returns
none for the message. The shape check and the off switch detection mirror
the source conditions character for character, including the fact that a
three character argument is rejected only when it neither starts with a
dash nor ends with a dash. The next argument of the source loop is the
head of the remaining list; it is null exactly when the current argument
is the last one, which matches the null terminated argv of the source. -/
def parseSwitches (st : ProgramSettings) : List String → ProgramSettings × Option String
  | [] => (st, none)
  | arg :: rest =>
    let cs := arg.data
    let len := cs.length
    let c0 := cs.getD 0 ' '
    let c1 := cs.getD 1 ' '
    let c2 := cs.getD 2 ' '
    if (len != 2 && len != 3)
        || (len == 2 && c0 != '-')
        || (len == 3 && c0 != '-' && c2 != '-') then
      (st, some MESSAGE_INVALID_PARAMETERS)
    else
      let offSwitch := len == 3 && c2 == '-'
      match c1, rest with
      | 'o', [] => (st, some MESSAGE_INVALID_PARAMETERS)
      | 'o', v :: r2 => parseSwitches { st with OutputFilename := some v } r2
      | 't', [] => (st, some MESSAGE_INVALID_PARAMETERS)
      | 't', v :: r2 => parseSwitches { st with TestFilename := some v } r2
      | 'e', [] => (st, some MESSAGE_INVALID_PARAMETERS)
      | 'e', v :: r2 =>
          parseSwitches { st with MemberStructExpansion := expansionOfChar v.data } r2
      | 'u', [] => (st, some MESSAGE_INVALID_PARAMETERS)
      | 'u', v :: r2 => parseSwitches { st with AnonymousUnionPrefix := some v } r2
      | 's', [] => (st, some MESSAGE_INVALID_PARAMETERS)
      | 's', v :: r2 => parseSwitches { st with AnonymousStructPrefix := some v } r2
      | 'r', [] => (st, some MESSAGE_INVALID_PARAMETERS)
      | 'r', v :: r2 => parseSwitches { st with SymbolPrefix := some v } r2
      | 'g', [] => (st, some MESSAGE_INVALID_PARAMETERS)
      | 'g', v :: r2 => parseSwitches { st with SymbolSuffix := some v } r2
      | 'p', r => parseSwitches { st with CreatePaddingMembers := !offSwitch } r
      | 'x', r => parseSwitches { st with ShowOffsets := !offSwitch } r
      | 'm', r => parseSwitches { st with MicrosoftTypedefs := !offSwitch } r
      | 'b', r => parseSwitches { st with AllowBitFieldsInUnion := !offSwitch } r
      | 'd', r => parseSwitches { st with AllowAnonymousDataTypes := !offSwitch } r
      | 'i', r => parseSwitches { st with UseStdInt := !offSwitch } r
      | 'j', r => parseSwitches { st with PrintReferencedTypes := !offSwitch } r
      | 'k', r => parseSwitches { st with PrintHeader := !offSwitch } r
      | 'n', r => parseSwitches { st with PrintDeclarations := !offSwitch } r
      | 'l', r => parseSwitches { st with PrintDefinitions := !offSwitch } r
      | _, _ => (st, some MESSAGE_INVALID_PARAMETERS)

/-- ParseParameters over the whole argument vector: the first element is
the program name, the second the symbol name, the third the PDB path, the
remainder feeds the option loop. The source reads the symbol name and the
path unconditionally; an argument vector shorter than three elements that
is not a help invocation runs past the vector in the source, and is
modelled here as an invalid parameter failure (no claim exercises that
case). -/
def ParseParameters (argv : List String) : ProgramSettings × Option String :=
  match argv with
  | _ :: sym :: path :: rest =>
      parseSwitches { SymbolName := sym, PdbPath := path } rest
  | _ => ({ SymbolName := "", PdbPath := "" }, some MESSAGE_INVALID_PARAMETERS)

/-- Modelled from the spec: the symbol graph exposed by the external PDB
reader, as the ordered collection of top level symbols of its symbol map
(spec section 6, symbol_map). -/
structure PDBFile where
  SymbolMap : List SYMBOL
deriving DecidableEq, Repr

/-- Modelled from the spec: lookup_by_name of the external PDB reader
(spec section 6); returns the first symbol of the map carrying the
requested name, or none. -/
def GetSymbolByName (pdb : PDBFile) (name : String) : Option SYMBOL :=
  pdb.SymbolMap.find? (fun s => s.Name == name)

/-- Modelled from the spec: the is_unnamed classification helper of the
external PDB reader (spec sections 3 and 6); an absent or empty name
signals an anonymous symbol. -/
def IsUnnamedSymbol (s : SYMBOL) : Bool :=
  s.Name == ""

/-- Modelled from the spec: the udt_kind_string helper of the external
PDB reader (spec sections 3 and 6). -/
def GetUdtKindString (k : UdtKind) : String :=
  match k with
  | UdtKind.Struct => "struct"
  | UdtKind.Union => "union"
  | UdtKind.Class => "class"

/-- Modelled from the spec: GetCorrectedSymbolName of the header
reconstructor, whose source is not among the files; spec section 4.5
applies the global symbol name affixes to every emitted top level type
name. -/
def GetCorrectedSymbolName (st : ProgramSettings) (e : SYMBOL) : String :=
  st.SymbolPrefix.getD "" ++ e.Name ++ st.SymbolSuffix.getD ""

/-- One write to the output stream of the driver: the file header
comment, one forward declaration line, the blank line closing the
declaration block, or the full definition of one symbol as produced by
the external symbol visitor. -/
inductive OutEvent where
  | header
  | decl (line : String)
  | blank
  | defn (sym : SYMBOL)
deriving DecidableEq, Repr

/-- The text of one forward declaration line written by the driver: kind
keyword, space, corrected name, semicolon. -/
def declText (st : ProgramSettings) (e : SYMBOL) : String :=
  GetUdtKindString e.UserDataKind ++ " " ++ GetCorrectedSymbolName st e ++ ";"

/-- PrintPDBHeader reduced to its output events; the architecture string
interpolated into the header text comes from the external sorter and is
not modelled. -/
def PrintPDBHeaderEv (st : ProgramSettings) : List OutEvent :=
  if st.PrintHeader then [OutEvent.header] else []

/-- PrintPDBDeclarations: when declaration printing is on, one line per
sorted symbol that is a UDT and not unnamed, followed by one blank line;
nothing otherwise. -/
def PrintPDBDeclarations (st : ProgramSettings) (sorted : List SYMBOL) : List OutEvent :=
  if st.PrintDeclarations then
    (sorted.filterMap (fun e =>
      if e.Tag = SymTag.UDT ∧ IsUnnamedSymbol e = false
      then some (OutEvent.decl (declText st e)) else none)) ++ [OutEvent.blank]
  else []

/-- The Expand flag of PrintPDBDefinitions: an unnamed Enum or UDT is not
expanded when the expansion policy is InlineUnnamed. -/
def shouldExpand (st : ProgramSettings) (e : SYMBOL) : Bool :=
  !(st.MemberStructExpansion == MemberStructExpansionType.InlineUnnamed
      && (e.Tag == SymTag.Enum || e.Tag == SymTag.UDT)
      && IsUnnamedSymbol e)

/-- PrintPDBDefinitions: when definition printing is on, the external
symbol visitor runs over every sorted symbol whose Expand flag holds, in
the sorted order. -/
def PrintPDBDefinitions (st : ProgramSettings) (sorted : List SYMBOL) : List OutEvent :=
  if st.PrintDefinitions then
    sorted.filterMap (fun e =>
      if shouldExpand st e then some (OutEvent.defn e) else none)
  else []

/-- DumpAllSymbols, parameterized by the Visit operation of the external
symbol sorter (a fold over the sorter state, here the accumulated sorted
list): the header, then the declarations and the definitions computed
from the sorted set the sorter built over the whole symbol map. -/
def DumpAllSymbols (st : ProgramSettings)
    (visit : List SYMBOL → SYMBOL → List SYMBOL)
    (pdb : PDBFile) : List OutEvent :=
  PrintPDBHeaderEv st ++
    (PrintPDBDeclarations st (List.foldl visit [] pdb.SymbolMap) ++
     PrintPDBDefinitions st (List.foldl visit [] pdb.SymbolMap))

/-- DumpOneSymbol, parameterized by the sorter Visit operation: an absent
symbol name is a thrown SymbolNotFound before anything is written; then
the header; then, when referenced types are printed and the expansion
policy is not InlineAll, the sorter visits the symbol and the definitions
of the resulting sorted set are printed; otherwise only the requested
symbol is run through the external symbol visitor. -/
def DumpOneSymbol (st : ProgramSettings)
    (visit : List SYMBOL → SYMBOL → List SYMBOL)
    (pdb : PDBFile) : Except String (List OutEvent) :=
  match GetSymbolByName pdb st.SymbolName with
  | none => Except.error MESSAGE_SYMBOL_NOT_FOUND
  | some sym =>
    Except.ok (PrintPDBHeaderEv st ++
      (if st.PrintReferencedTypes = true ∧
          st.MemberStructExpansion ≠ MemberStructExpansionType.InlineAll
       then PrintPDBDefinitions st (visit [] sym)
       else [OutEvent.defn sym]))

/-- Observable outcome of one driver run: the returned status, the lines
written to the error stream, the events written to the output stream and
the file names closed by CloseOpenedFiles before returning. -/
structure RunResult where
  ExitCode : Nat
  Stderr : List String
  Output : List OutEvent
  ClosedFiles : List String
deriving DecidableEq, Repr

/-- The early help check of ParseParameters: no arguments beyond the
program name, or a single -h or --help argument. -/
def isHelpInvocation (argv : List String) : Bool :=
  argv.length == 1
    || (argv.length == 2 && (argv.getD 1 "" == "-h" || argv.getD 1 "" == "--help"))

/-- CloseOpenedFiles: the streams deleted on return, exactly the test
file and the output file that were created because a file name was given
for them. -/
def CloseOpenedFiles (st : ProgramSettings) : List String :=
  st.TestFilename.toList ++ st.OutputFilename.toList

/-- The Run method, parameterized by the file system (what opening a path
yields) and by the sorter Visit operation. The help invocation calls exit
directly inside ParseParameters, before the try block; every thrown
message is caught, printed as the single error line, and turns the status
into EXIT_FAILURE; CloseOpenedFiles runs after the catch in every
non-help path. The writes to the test file stream are not modelled; the
Output field holds the output stream only. -/
def Run (fs : String → Option PDBFile)
    (visit : List SYMBOL → SYMBOL → List SYMBOL)
    (argv : List String) : RunResult :=
  if isHelpInvocation argv then
    { ExitCode := 0, Stderr := [], Output := [], ClosedFiles := [] }
  else
    match ParseParameters argv with
    | (st, some msg) =>
      { ExitCode := 1, Stderr := [msg], Output := [],
        ClosedFiles := CloseOpenedFiles st }
    | (st, none) =>
      match fs st.PdbPath with
      | none =>
        { ExitCode := 1, Stderr := [MESSAGE_FILE_NOT_FOUND], Output := [],
          ClosedFiles := CloseOpenedFiles st }
      | some pdb =>
        if st.SymbolName == "*" then
          { ExitCode := 0, Stderr := [], Output := DumpAllSymbols st visit pdb,
            ClosedFiles := CloseOpenedFiles st }
        else
          match DumpOneSymbol st visit pdb with
          | Except.error msg =>
            { ExitCode := 1, Stderr := [msg], Output := [],
              ClosedFiles := CloseOpenedFiles st }
          | Except.ok out =>
            { ExitCode := 0, Stderr := [], Output := out,
              ClosedFiles := CloseOpenedFiles st }

/-- Claim C4: a run whose requested (non wildcard) symbol name is absent
from the graph throws SymbolNotFound, which the catch block turns into
exactly one diagnostic line and the failure status; nothing is written to
the output stream for that symbol and the files created during parameter
parsing are still closed before the run returns. -/
theorem run_symbolNotFound (fs : String → Option PDBFile)
    (visit : List SYMBOL → SYMBOL → List SYMBOL) (argv : List String)
    (st : ProgramSettings) (pdb : PDBFile)
    (hhelp : isHelpInvocation argv = false)
    (hparse : ParseParameters argv = (st, none))
    (hopen : fs st.PdbPath = some pdb)
    (hstar : (st.SymbolName == "*") = false)
    (hlook : GetSymbolByName pdb st.SymbolName = none) :
    Run fs visit argv =
      { ExitCode := 1, Stderr := [MESSAGE_SYMBOL_NOT_FOUND], Output := [],
        ClosedFiles := CloseOpenedFiles st } := by
  simp [Run, hhelp, hparse, hopen, hstar, DumpOneSymbol, hlook]

/-- Named UDT symbol used for concrete runs. -/
def symA : SYMBOL :=
  { Tag := SymTag.UDT, Name := "A", Size := 4, ElementCount := 0,
    UserDataKind := UdtKind.Struct }

/-- A one symbol graph. -/
def onePdb : PDBFile := { SymbolMap := [symA] }

/-- A concrete sorter Visit operation: append the visited symbol. -/
def appendVisit : List SYMBOL → SYMBOL → List SYMBOL := fun l s => l ++ [s]

/-- An argument vector requesting an absent symbol with an output file. -/
def nfArgv : List String := ["pdbex", "NoSuchType", "f.pdb", "-o", "out.h"]

/-- The settings that argument vector parses to. -/
def nfSettings : ProgramSettings :=
  { SymbolName := "NoSuchType", PdbPath := "f.pdb", OutputFilename := some "out.h" }

/-- A file system with exactly one PDB file. -/
def nfFs : String → Option PDBFile :=
  fun p => if p == "f.pdb" then some onePdb else none

/-- Witness for claim C4 at a concrete run. -/
theorem run_symbolNotFound_witness :
    Run nfFs appendVisit nfArgv =
      { ExitCode := 1, Stderr := [MESSAGE_SYMBOL_NOT_FOUND], Output := [],
        ClosedFiles := CloseOpenedFiles nfSettings } :=
  run_symbolNotFound nfFs appendVisit nfArgv nfSettings onePdb rfl rfl rfl rfl rfl

/-- Settings for a single symbol run with every printing toggle at its
default, declarations included. -/
def cexSettings : ProgramSettings := { SymbolName := "A", PdbPath := "f.pdb" }

/-- Claim C7: in a single symbol run, an InlineAll expansion policy, and
likewise a disabled print of referenced types, sends the run down the
branch that only runs the external symbol visitor over the requested
symbol: the result does not depend on the sorter Visit operation at all,
and no standalone definition of any referenced type is emitted. -/
theorem dumpOne_suppresses_referenced (st : ProgramSettings)
    (visit : List SYMBOL → SYMBOL → List SYMBOL) (pdb : PDBFile) (sym : SYMBOL)
    (hfound : GetSymbolByName pdb st.SymbolName = some sym)
    (hpol : st.MemberStructExpansion = MemberStructExpansionType.InlineAll ∨
            st.PrintReferencedTypes = false) :
    DumpOneSymbol st visit pdb
      = Except.ok (PrintPDBHeaderEv st ++ [OutEvent.defn sym]) := by
  unfold DumpOneSymbol
  rw [hfound]
  have hneg : ¬ (st.PrintReferencedTypes = true ∧
      st.MemberStructExpansion ≠ MemberStructExpansionType.InlineAll) := by
    rcases hpol with h | h
    · intro hc; exact hc.2 h
    · intro hc; rw [h] at hc; exact absurd hc.1 (by simp)
  simp [hneg]

/-- Settings for a single symbol run under the InlineAll policy. -/
def c7Settings : ProgramSettings :=
  { SymbolName := "A", PdbPath := "f.pdb",
    MemberStructExpansion := MemberStructExpansionType.InlineAll }

/-- Witness for claim C7 at a concrete run. -/
theorem dumpOne_suppresses_referenced_witness :
    DumpOneSymbol c7Settings appendVisit onePdb
      = Except.ok (PrintPDBHeaderEv c7Settings ++ [OutEvent.defn symA]) :=
  dumpOne_suppresses_referenced c7Settings appendVisit onePdb symA rfl (Or.inl rfl)

/-- Claim C8: when declaration printing is on, a forward declaration line
appears in the declaration output exactly for the sorted symbols that are
UDTs and not unnamed, and it consists of the kind keyword, the corrected
name and a semicolon; anonymous UDTs and all Enums contribute no line. -/
theorem printDeclarations_line_iff (st : ProgramSettings) (sorted : List SYMBOL)
    (line : String) (h : st.PrintDeclarations = true) :
    OutEvent.decl line ∈ PrintPDBDeclarations st sorted ↔
      ∃ e, e ∈ sorted ∧ e.Tag = SymTag.UDT ∧ IsUnnamedSymbol e = false ∧
        line = declText st e := by
  unfold PrintPDBDeclarations
  rw [if_pos h]
  rw [List.mem_append]
  constructor
  · rintro (hm | hm)
    · rw [List.mem_filterMap] at hm
      rcases hm with ⟨e, he, hf⟩
      by_cases hc : e.Tag = SymTag.UDT ∧ IsUnnamedSymbol e = false
      · rw [if_pos hc] at hf
        injection hf with hf2
        injection hf2 with hf3
        exact ⟨e, he, hc.1, hc.2, hf3.symm⟩
      · rw [if_neg hc] at hf
        exact absurd hf (by simp)
    · exact absurd hm (by simp)
  · rintro ⟨e, he, h1, h2, h3⟩
    left
    rw [List.mem_filterMap]
    exact ⟨e, he, by rw [if_pos ⟨h1, h2⟩, h3]⟩

/-- Witness for claim C8 at a concrete sorted set. -/
theorem printDeclarations_line_iff_witness :
    OutEvent.decl (declText cexSettings symA) ∈ PrintPDBDeclarations cexSettings [symA] :=
  (printDeclarations_line_iff cexSettings [symA] (declText cexSettings symA) rfl).mpr
    ⟨symA, List.Mem.head _, rfl, rfl, rfl⟩

/-- Claim C9 evaluation at the failing input: the argument xp- has
neither the two character dash form nor the three character dash form,
yet the option loop accepts it, because the shape check of the source
rejects a three character argument only when it both does not start with
a dash and does not end with a dash; it is then processed like the p
switch with its off marker, so parsing ends without any error and with
padding members turned off. -/
theorem parse_malformed_flag_accepted :
    parseSwitches { SymbolName := "A", PdbPath := "f.pdb" } ["xp-"]
      = ({ SymbolName := "A", PdbPath := "f.pdb", CreatePaddingMembers := false },
         none) :=
  rfl

/-- The default branch of the inner e option switch: a first character
other than n, i and a selects InlineUnnamed. -/
theorem expansionOfChar_default (c : Char) (tl : List Char)
    (h1 : c ≠ 'n') (h2 : c ≠ 'i') (h3 : c ≠ 'a') :
    expansionOfChar (c :: tl) = MemberStructExpansionType.InlineUnnamed := by
  simp [expansionOfChar, h1, h2, h3]

/-- Claim C10: the e option with a value whose first character is none of
n, i and a raises no error and behaves exactly like an explicit i, and
the e option with no following value argument at all is an invalid
parameter failure. -/
theorem parse_eFlag_default (st : ProgramSettings) (c : Char) (tl : List Char)
    (r2 : List String) (h1 : c ≠ 'n') (h2 : c ≠ 'i') (h3 : c ≠ 'a') :
    parseSwitches st ("-e" :: String.mk (c :: tl) :: r2)
      = parseSwitches
          { st with MemberStructExpansion := MemberStructExpansionType.InlineUnnamed }
          r2 ∧
    parseSwitches st ["-e"] = (st, some MESSAGE_INVALID_PARAMETERS) := by
  constructor
  · have hstep : parseSwitches st ("-e" :: String.mk (c :: tl) :: r2)
        = parseSwitches
            { st with MemberStructExpansion := expansionOfChar (c :: tl) } r2 := rfl
    rw [hstep, expansionOfChar_default c tl h1 h2 h3]
  · rfl

/-- Witness for claim C10 at a concrete value argument. -/
theorem parse_eFlag_default_witness :
    parseSwitches cexSettings ("-e" :: String.mk ('z' :: []) :: [])
      = parseSwitches
          { cexSettings with
              MemberStructExpansion := MemberStructExpansionType.InlineUnnamed } [] ∧
    parseSwitches cexSettings ["-e"] = (cexSettings, some MESSAGE_INVALID_PARAMETERS) :=
  parse_eFlag_default cexSettings 'z' [] [] (by decide) (by decide) (by decide)
